import Mathlib

/- Shallow embedding of the trAIder dashboard client scripts
   (src/ui/static/js/dashboard.js and the second client variant).
   Numbers are modelled as exact rationals; every concrete input that a
   theorem below evaluates is exactly representable in binary64 and rounds
   identically there, so the rational model and the JavaScript runtime agree
   on all evaluated cases. -/

namespace Traider

/-- Model of ECMAScript toFixed with two fraction digits on a nonnegative
value: the integer n nearest to 100 times x, ties to the larger n, printed
with a decimal point before the last two digits. -/
def toFixed2P (x : ℚ) : String :=
  let n : ℕ := (⌊x * 100 + 1 / 2⌋).toNat
  toString (n / 100) ++ "." ++ (if n % 100 < 10 then "0" else "") ++ toString (n % 100)

/-- Model of toFixed(2): ECMAScript strips the sign first, so a small negative
value renders as a minus sign followed by the rounded magnitude, possibly
the string -0.00. -/
def toFixed2 (x : ℚ) : String := if x < 0 then "-" ++ toFixed2P (-x) else toFixed2P x

/-- Numeric value that ECMAScript ToNumber reads back from the toFixed2
string (the JavaScript value minus zero is the rational 0). -/
def toFixedVal2 (x : ℚ) : ℚ :=
  if x < 0 then -(((⌊-x * 100 + 1 / 2⌋).toNat : ℚ) / 100)
  else ((⌊x * 100 + 1 / 2⌋).toNat : ℚ) / 100

/-- DashboardManager.formatVolume from dashboard.js, lines 262 to 271. -/
def formatVolume (volume : ℚ) : String :=
  if volume ≥ 1000000000 then toFixed2 (volume / 1000000000) ++ "B"
  else if volume ≥ 1000000 then toFixed2 (volume / 1000000) ++ "M"
  else if volume ≥ 1000 then toFixed2 (volume / 1000) ++ "K"
  else toFixed2 volume

/-- A numeric field of a JSON payload as the dashboard reads it: absent or
null or otherwise falsy, a number, or a truthy value that is not a number
(toFixed on it throws a TypeError). -/
inductive JsNum where
  | undef : JsNum
  | num : ℚ → JsNum
  | bad : JsNum
deriving DecidableEq

/-- JavaScript truthiness of a numeric payload field: absent and 0 are falsy. -/
def JsNum.truthy : JsNum → Bool
  | .undef => false
  | .num q => q != 0
  | .bad => true

/-- The signal and llmAnalysis sub objects: a message plus optional details
markup. -/
structure SignalData where
  message : String
  details : Option String
deriving DecidableEq

/-- The parsed chart specification handed to Plotly: the data traces and the
layout, both abstracted to numeric tags since Plotly is an external library. -/
structure ChartSpec where
  traces : ℕ
  layout : ℕ
deriving DecidableEq

/-- What becomes of the chart portion of a response: JSON.parse of the data
string throws, Plotly rejects the parsed spec, or the spec renders. -/
inductive ChartField where
  | parseError : ChartField
  | renderError : ChartField
  | good : ChartSpec → ChartField
deriving DecidableEq

/-- Parsed JSON body of a response from the chart-data or update endpoint. -/
structure Payload where
  success : Bool
  chart : ChartField
  lastPrice : JsNum
  priceChange : JsNum
  volume : JsNum
  signal : Option SignalData
  llmAnalysis : Option SignalData
  lastUpdate : String
deriving DecidableEq

/-- An interval timer registered with the browser event loop. -/
structure Timer where
  id : ℕ
  cadence : ℕ
deriving DecidableEq

/-- The DashboardManager instance state together with the DOM text nodes it
writes and the set of live interval timers of the page. -/
structure DashState where
  mainChart : Option ChartSpec
  createdCount : ℕ
  lastPriceText : String
  priceChangeText : String
  priceChangeCls : String
  volumeText : String
  signalMessage : String
  signalDetails : String
  llmMessage : String
  llmDetails : String
  lastUpdateTime : Option String
  timeframe : String
  rsiChecked : Bool
  macdChecked : Bool
  timers : List Timer
  updateInterval : Option ℕ
  nextTimerId : ℕ
  alerts : List String
  logs : List String
deriving DecidableEq

/-- The visible state the spec speaks about: chart series and layout, the
market summary texts, the signal and LLM panels, and the last update time. -/
def display (s : DashState) : Option ChartSpec × String × String × String ×
    String × String × String × String × String × Option String :=
  (s.mainChart, s.lastPriceText, s.priceChangeText, s.priceChangeCls,
   s.volumeText, s.signalMessage, s.signalDetails, s.llmMessage,
   s.llmDetails, s.lastUpdateTime)

/-- Outcome of one fetch of the chart-data or update endpoint: the fetch or
response.json rejected, or a parsed body arrived. -/
inductive FetchOutcome where
  | netError : FetchOutcome
  | ok : Payload → FetchOutcome
deriving DecidableEq

/-- Outcome of a toggle endpoint request: rejected, or a body whose success
flag is the argument. -/
inductive ToggleOutcome where
  | netError : ToggleOutcome
  | ok : Bool → ToggleOutcome
deriving DecidableEq

/-- DashboardManager.showError: console.error plus a blocking alert. -/
def showError (m : String) (s : DashState) : DashState :=
  { s with logs := s.logs ++ [m], alerts := s.alerts ++ [m] }

/-- A failure that is only logged, never alerted. -/
def logOnly (m : String) (s : DashState) : DashState :=
  { s with logs := s.logs ++ [m] }

/-- The lastPrice block of updateMarketSummary: written only when truthy;
the second component records whether the block threw. -/
def umsLP (v : JsNum) (s : DashState) : DashState × Bool :=
  match v with
  | .undef => (s, false)
  | .bad => (s, true)
  | .num q => (if q = 0 then s else { s with lastPriceText := toFixed2 q }, false)

/-- The class string assigned to the price change element: the toFixed string
is compared against the number 0, which coerces it back to a number. -/
def pcCls (q : ℚ) : String :=
  "value " ++ (if 0 ≤ toFixedVal2 q then "positive" else "negative")

/-- The priceChange block of updateMarketSummary. -/
def umsPC (v : JsNum) (s : DashState) : DashState × Bool :=
  match v with
  | .undef => (s, false)
  | .bad => (s, true)
  | .num q =>
    (if q = 0 then s
     else { s with priceChangeText := toFixed2 q ++ "%", priceChangeCls := pcCls q }, false)

/-- The volume block of updateMarketSummary. -/
def umsVol (v : JsNum) (s : DashState) : DashState × Bool :=
  match v with
  | .undef => (s, false)
  | .bad => (s, true)
  | .num q => (if q = 0 then s else { s with volumeText := formatVolume q }, false)

/-- The signal panel block of updateMarketSummary. -/
def umsSig (v : Option SignalData) (s : DashState) : DashState :=
  match v with
  | none => s
  | some sig =>
    { s with signalMessage := sig.message, signalDetails := sig.details.getD "" }

/-- The llmAnalysis panel block of updateMarketSummary. -/
def umsLlm (v : Option SignalData) (s : DashState) : DashState :=
  match v with
  | none => s
  | some l =>
    { s with llmMessage := l.message, llmDetails := l.details.getD "" }

/-- Sequencing of the blocks: a block that threw ends the function, keeping
the writes already performed. -/
def seqT (r : DashState × Bool) (f : DashState → DashState × Bool) : DashState × Bool :=
  match r with
  | (s, true) => (s, true)
  | (s, false) => f s

/-- DashboardManager.updateMarketSummary, lines 231 to 260: five guarded
writes in order; the Bool records whether a TypeError escaped. -/
def updateMarketSummary (d : Payload) (s : DashState) : DashState × Bool :=
  seqT (umsLP d.lastPrice s) fun s =>
    seqT (umsPC d.priceChange s) fun s =>
      seqT (umsVol d.volume s) fun s =>
        (umsLlm d.llmAnalysis (umsSig d.signal s), false)

/-- The chart render of fetchChartData: Plotly.newPlot creates the widget on
the first render, Plotly.react updates it in place afterwards; either way the
displayed chart becomes the parsed spec. -/
def renderStep (c : ChartSpec) (s : DashState) : DashState :=
  match s.mainChart with
  | none => { s with mainChart := some c, createdCount := s.createdCount + 1 }
  | some _ => { s with mainChart := some c }

/-- DashboardManager.fetchChartData, lines 75 to 119: validate the envelope,
parse and render the chart (Plotly.newPlot on first render, Plotly.react
afterwards), update the summary, record lastUpdate; every failure is caught
and routed to showError. -/
def fetchChartData (out : FetchOutcome) (s : DashState) : DashState :=
  match out with
  | .netError => showError "Failed to fetch chart data" s
  | .ok d =>
    if d.success = false then showError "Failed to fetch chart data" s
    else
      match d.chart with
      | .parseError => showError "Failed to fetch chart data" s
      | .renderError => showError "Failed to fetch chart data" s
      | .good c =>
        let s1 := renderStep c s
        match updateMarketSummary d s1 with
        | (s2, true) => showError "Failed to fetch chart data" s2
        | (s2, false) => { s2 with lastUpdateTime := some d.lastUpdate }

/-- The fixed cadence table of startRealTimeUpdates, lines 128 to 137. -/
def intervalFor (tf : String) : ℕ :=
  if tf = "1m" then 1000
  else if tf = "5m" then 5000
  else if tf = "15m" then 15000
  else if tf = "1h" then 60000
  else if tf = "4h" then 240000
  else if tf = "1d" then 300000
  else 60000

/-- DashboardManager.startRealTimeUpdates, lines 121 to 142: clear the held
interval if any, then register a fresh interval at the table cadence for the
current timeframe and hold its id. -/
def startRealTimeUpdates (s : DashState) : DashState :=
  let s' :=
    match s.updateInterval with
    | some tid => { s with timers := s.timers.filter (fun t => t.id ≠ tid) }
    | none => s
  let t : Timer := ⟨s'.nextTimerId, intervalFor s'.timeframe⟩
  { s' with timers := s'.timers ++ [t], updateInterval := some t.id,
            nextTimerId := s'.nextTimerId + 1 }

/-- DashboardManager.fetchUpdate, lines 144 to 180: the request body already
calls toISOString on lastUpdateTime, which throws when it is still null; on a
valid response the chart is updated through Plotly.react, then the summary,
then lastUpdateTime; every failure is only logged. The Bool records whether
the try block ran to completion. -/
def fetchUpdate (out : FetchOutcome) (s : DashState) : DashState × Bool :=
  if s.lastUpdateTime.isNone then (logOnly "Failed to fetch update" s, false)
  else
    match out with
    | .netError => (logOnly "Failed to fetch update" s, false)
    | .ok d =>
      if d.success = false then (logOnly "Failed to fetch update" s, false)
      else
        match d.chart with
        | .parseError => (logOnly "Failed to fetch update" s, false)
        | .renderError => (logOnly "Failed to fetch update" s, false)
        | .good c =>
          let s1 := { s with mainChart := some c }
          match updateMarketSummary d s1 with
          | (s2, true) => (logOnly "Failed to fetch update" s2, false)
          | (s2, false) => ({ s2 with lastUpdateTime := some d.lastUpdate }, true)

/-- DashboardManager.initialize, lines 65 to 73, renamed because the source
name is reserved here: one fetch and render pass, then the periodic timer;
fetchChartData swallows its own failures, so the catch branch of initialize
is unreachable and the timer always starts. -/
def initDashboard (out : FetchOutcome) (s : DashState) : DashState :=
  startRealTimeUpdates (fetchChartData out s)

/-- The timeframeSelect change handler, lines 39 to 42: set the timeframe
field and refetch; the timer is not touched. -/
def onTimeframeChange (v : String) (out : FetchOutcome) (s : DashState) : DashState :=
  fetchChartData out { s with timeframe := v }

/-- DashboardManager.toggleIndicator, lines 182 to 205: post the indicator
name; on success refetch the chart, on any failure only showError. The
second outcome feeds the refetch on the success path. -/
def toggleIndicator (indicator : String) (tout : ToggleOutcome)
    (fout : FetchOutcome) (s : DashState) : DashState :=
  match tout with
  | .netError => showError ("Failed to toggle " ++ indicator) s
  | .ok success =>
    if success then fetchChartData fout s
    else showError ("Failed to toggle " ++ indicator) s

/-- True when the update or chart-data pass fails before the chart render
step: rejected fetch, success false, unparsable chart string, or a Plotly
rejection. -/
def failsBeforeRender : FetchOutcome → Bool
  | .netError => true
  | .ok d =>
    !d.success ||
      (match d.chart with
       | .parseError => true
       | .renderError => true
       | .good _ => false)

/-- True when a toggle request fails: rejected fetch or success false. -/
def toggleFailed : ToggleOutcome → Bool
  | .netError => true
  | .ok b => !b

/-- A background poll that fails at or before the chart render step: the
toISOString throw on a null lastUpdateTime, or an early response failure. -/
def updFailsEarly (out : FetchOutcome) (s : DashState) : Bool :=
  s.lastUpdateTime.isNone || failsBeforeRender out

/-- The held interval id tracks the live timer set: no held id and no live
timer, or a held id naming the single live timer. -/
def timersTracked (s : DashState) : Prop :=
  (s.updateInterval = none ∧ s.timers = []) ∨
    (∃ t : Timer, s.updateInterval = some t.id ∧ s.timers = [t])

/-- The page state as constructed by the DashboardManager constructor on a
fresh load, before initialize runs. -/
def initialState : DashState :=
  { mainChart := none, createdCount := 0, lastPriceText := "", priceChangeText := "",
    priceChangeCls := "", volumeText := "", signalMessage := "", signalDetails := "",
    llmMessage := "", llmDetails := "", lastUpdateTime := none, timeframe := "1h",
    rsiChecked := false, macdChecked := false, timers := [], updateInterval := none,
    nextTimerId := 0, alerts := [], logs := [] }

/-- A payload with no summary fields whose chart renders: used as a concrete
successful response. -/
def okPayload (c : ChartSpec) (lu : String) : Payload :=
  { success := true, chart := .good c, lastPrice := .undef, priceChange := .undef,
    volume := .undef, signal := none, llmAnalysis := none, lastUpdate := lu }

/-- A successful response whose chart renders but whose lastPrice field is a
truthy non number, so the summary step throws after the chart was redrawn. -/
def badSummaryPayload (c : ChartSpec) (lu : String) : Payload :=
  { success := true, chart := .good c, lastPrice := .bad, priceChange := .undef,
    volume := .undef, signal := none, llmAnalysis := none, lastUpdate := lu }

/-- A successful response carrying every summary field. -/
def fullPayload (c : ChartSpec) (lp pc vol : ℚ) (sig llm : SignalData)
    (lu : String) : Payload :=
  { success := true, chart := .good c, lastPrice := .num lp, priceChange := .num pc,
    volume := .num vol, signal := some sig, llmAnalysis := some llm, lastUpdate := lu }

/-- A dashboard state that has already rendered once: as after a successful
initial fetch of the chart c at time lu with timeframe tf. -/
def renderedState (c : ChartSpec) (lu tf : String) : DashState :=
  { initialState with
    mainChart := some c, createdCount := 1,
    lastUpdateTime := some lu, timeframe := tf,
    timers := [⟨0, intervalFor tf⟩], updateInterval := some 0, nextTimerId := 1 }

/- Second client variant (the unnamed script with updateMarketInfo): it reads
candle arrays from the market-data endpoint. -/

/-- One OHLCV candle of the market-data response. The field openPrice models
the JSON field named open, which is a reserved word here. -/
structure Candle where
  timestamp : ℚ
  openPrice : ℚ
  high : ℚ
  low : ℚ
  close : ℚ
  volume : ℚ
deriving DecidableEq

/-- The texts and color written by updateMarketInfo of the second variant.
The volume element receives toLocaleString of the volume, modelled by the
underlying value. -/
structure MarketInfo where
  lastPriceText : String
  priceChangeText : String
  priceChangeColor : String
  volumeShown : ℚ
deriving DecidableEq

/-- JavaScript array indexing: a negative index misses every element and
yields undefined. -/
def jsIndex {α : Type} (l : List α) (i : ℤ) : Option α :=
  if i < 0 then none else l.get? i.toNat

/-- updateMarketInfo of the second variant, lines 148 to 162: reads the
candles at length minus 1 and length minus 2; when either access yields
undefined the function throws on the close field and no full update happens,
which the none result records. -/
def updateMarketInfo (data : List Candle) : Option MarketInfo :=
  match jsIndex data ((data.length : ℤ) - 1), jsIndex data ((data.length : ℤ) - 2) with
  | some latest, some prev =>
    let change := ((latest.close - prev.close) / prev.close) * 100
    some { lastPriceText := toFixed2 latest.close,
           priceChangeText := toFixed2 change ++ "%",
           priceChangeColor :=
             if change ≥ 0 then "var(--success-color)" else "var(--error-color)",
           volumeShown := latest.volume }
  | _, _ => none

/-- A successful payload whose only summary field is a numeric priceChange. -/
def pcPayload (q : ℚ) : Payload :=
  { success := true, chart := .good ⟨1, 1⟩, lastPrice := .undef,
    priceChange := .num q, volume := .undef, signal := none,
    llmAnalysis := none, lastUpdate := "t" }

/-- A successful payload whose only summary field is the signal panel. -/
def sigPayload : Payload :=
  { success := true, chart := .good ⟨1, 10⟩, lastPrice := .undef,
    priceChange := .undef, volume := .undef, signal := some ⟨"s1", none⟩,
    llmAnalysis := none, lastUpdate := "t1" }

/- Helper lemmas about the summary blocks. -/

theorem umsLP_shape (v : JsNum) (s : DashState) :
    ∃ x, (umsLP v s).1 = { s with lastPriceText := x } := by
  cases v with
  | undef => exact ⟨s.lastPriceText, rfl⟩
  | bad => exact ⟨s.lastPriceText, rfl⟩
  | num q =>
    refine ⟨if q = 0 then s.lastPriceText else toFixed2 q, ?_⟩
    simp only [umsLP]
    split_ifs <;> rfl

theorem umsPC_shape (v : JsNum) (s : DashState) :
    ∃ x y, (umsPC v s).1 = { s with priceChangeText := x, priceChangeCls := y } := by
  cases v with
  | undef => exact ⟨s.priceChangeText, s.priceChangeCls, rfl⟩
  | bad => exact ⟨s.priceChangeText, s.priceChangeCls, rfl⟩
  | num q =>
    refine ⟨if q = 0 then s.priceChangeText else toFixed2 q ++ "%",
            if q = 0 then s.priceChangeCls else pcCls q, ?_⟩
    simp only [umsPC]
    split_ifs <;> rfl

theorem umsVol_shape (v : JsNum) (s : DashState) :
    ∃ x, (umsVol v s).1 = { s with volumeText := x } := by
  cases v with
  | undef => exact ⟨s.volumeText, rfl⟩
  | bad => exact ⟨s.volumeText, rfl⟩
  | num q =>
    refine ⟨if q = 0 then s.volumeText else formatVolume q, ?_⟩
    simp only [umsVol]
    split_ifs <;> rfl

theorem umsSig_shape (v : Option SignalData) (s : DashState) :
    ∃ x y, umsSig v s = { s with signalMessage := x, signalDetails := y } := by
  cases v with
  | none => exact ⟨s.signalMessage, s.signalDetails, rfl⟩
  | some sig => exact ⟨sig.message, sig.details.getD "", rfl⟩

theorem umsLlm_shape (v : Option SignalData) (s : DashState) :
    ∃ x y, umsLlm v s = { s with llmMessage := x, llmDetails := y } := by
  cases v with
  | none => exact ⟨s.llmMessage, s.llmDetails, rfl⟩
  | some l => exact ⟨l.message, l.details.getD "", rfl⟩

theorem ums_keep {α : Type} (π : DashState → α) (d : Payload) (s : DashState)
    (h1 : ∀ s, π (umsLP d.lastPrice s).1 = π s)
    (h2 : ∀ s, π (umsPC d.priceChange s).1 = π s)
    (h3 : ∀ s, π (umsVol d.volume s).1 = π s)
    (h4 : ∀ s, π (umsSig d.signal s) = π s)
    (h5 : ∀ s, π (umsLlm d.llmAnalysis s) = π s) :
    π (updateMarketSummary d s).1 = π s := by
  unfold updateMarketSummary
  rcases hA : umsLP d.lastPrice s with ⟨s1, b1⟩
  have e1 : π s1 = π s := by have := h1 s; rw [hA] at this; exact this
  cases b1 with
  | true => simpa [seqT] using e1
  | false =>
    simp only [seqT]
    rcases hB : umsPC d.priceChange s1 with ⟨s2, b2⟩
    have e2 : π s2 = π s := by
      have := h2 s1; rw [hB] at this; exact this.trans e1
    cases b2 with
    | true => simpa [seqT] using e2
    | false =>
      simp only [seqT]
      rcases hC : umsVol d.volume s2 with ⟨s3, b3⟩
      have e3 : π s3 = π s := by
        have := h3 s2; rw [hC] at this; exact this.trans e2
      cases b3 with
      | true => simpa [seqT] using e3
      | false =>
        simp only [seqT]
        exact (h5 (umsSig d.signal s3)).trans ((h4 s3).trans e3)

theorem ums_mainChart (d : Payload) (s : DashState) :
    (updateMarketSummary d s).1.mainChart = s.mainChart :=
  ums_keep (fun s => s.mainChart) d s
    (fun s => by obtain ⟨x, hx⟩ := umsLP_shape d.lastPrice s; rw [hx])
    (fun s => by obtain ⟨x, y, hx⟩ := umsPC_shape d.priceChange s; rw [hx])
    (fun s => by obtain ⟨x, hx⟩ := umsVol_shape d.volume s; rw [hx])
    (fun s => by obtain ⟨x, y, hx⟩ := umsSig_shape d.signal s; rw [hx])
    (fun s => by obtain ⟨x, y, hx⟩ := umsLlm_shape d.llmAnalysis s; rw [hx])

theorem ums_createdCount (d : Payload) (s : DashState) :
    (updateMarketSummary d s).1.createdCount = s.createdCount :=
  ums_keep (fun s => s.createdCount) d s
    (fun s => by obtain ⟨x, hx⟩ := umsLP_shape d.lastPrice s; rw [hx])
    (fun s => by obtain ⟨x, y, hx⟩ := umsPC_shape d.priceChange s; rw [hx])
    (fun s => by obtain ⟨x, hx⟩ := umsVol_shape d.volume s; rw [hx])
    (fun s => by obtain ⟨x, y, hx⟩ := umsSig_shape d.signal s; rw [hx])
    (fun s => by obtain ⟨x, y, hx⟩ := umsLlm_shape d.llmAnalysis s; rw [hx])

theorem ums_lastUpdateTime (d : Payload) (s : DashState) :
    (updateMarketSummary d s).1.lastUpdateTime = s.lastUpdateTime :=
  ums_keep (fun s => s.lastUpdateTime) d s
    (fun s => by obtain ⟨x, hx⟩ := umsLP_shape d.lastPrice s; rw [hx])
    (fun s => by obtain ⟨x, y, hx⟩ := umsPC_shape d.priceChange s; rw [hx])
    (fun s => by obtain ⟨x, hx⟩ := umsVol_shape d.volume s; rw [hx])
    (fun s => by obtain ⟨x, y, hx⟩ := umsSig_shape d.signal s; rw [hx])
    (fun s => by obtain ⟨x, y, hx⟩ := umsLlm_shape d.llmAnalysis s; rw [hx])

theorem ums_timers (d : Payload) (s : DashState) :
    (updateMarketSummary d s).1.timers = s.timers :=
  ums_keep (fun s => s.timers) d s
    (fun s => by obtain ⟨x, hx⟩ := umsLP_shape d.lastPrice s; rw [hx])
    (fun s => by obtain ⟨x, y, hx⟩ := umsPC_shape d.priceChange s; rw [hx])
    (fun s => by obtain ⟨x, hx⟩ := umsVol_shape d.volume s; rw [hx])
    (fun s => by obtain ⟨x, y, hx⟩ := umsSig_shape d.signal s; rw [hx])
    (fun s => by obtain ⟨x, y, hx⟩ := umsLlm_shape d.llmAnalysis s; rw [hx])

theorem ums_updateInterval (d : Payload) (s : DashState) :
    (updateMarketSummary d s).1.updateInterval = s.updateInterval :=
  ums_keep (fun s => s.updateInterval) d s
    (fun s => by obtain ⟨x, hx⟩ := umsLP_shape d.lastPrice s; rw [hx])
    (fun s => by obtain ⟨x, y, hx⟩ := umsPC_shape d.priceChange s; rw [hx])
    (fun s => by obtain ⟨x, hx⟩ := umsVol_shape d.volume s; rw [hx])
    (fun s => by obtain ⟨x, y, hx⟩ := umsSig_shape d.signal s; rw [hx])
    (fun s => by obtain ⟨x, y, hx⟩ := umsLlm_shape d.llmAnalysis s; rw [hx])

theorem ums_nextTimerId (d : Payload) (s : DashState) :
    (updateMarketSummary d s).1.nextTimerId = s.nextTimerId :=
  ums_keep (fun s => s.nextTimerId) d s
    (fun s => by obtain ⟨x, hx⟩ := umsLP_shape d.lastPrice s; rw [hx])
    (fun s => by obtain ⟨x, y, hx⟩ := umsPC_shape d.priceChange s; rw [hx])
    (fun s => by obtain ⟨x, hx⟩ := umsVol_shape d.volume s; rw [hx])
    (fun s => by obtain ⟨x, y, hx⟩ := umsSig_shape d.signal s; rw [hx])
    (fun s => by obtain ⟨x, y, hx⟩ := umsLlm_shape d.llmAnalysis s; rw [hx])

theorem ums_timeframe (d : Payload) (s : DashState) :
    (updateMarketSummary d s).1.timeframe = s.timeframe :=
  ums_keep (fun s => s.timeframe) d s
    (fun s => by obtain ⟨x, hx⟩ := umsLP_shape d.lastPrice s; rw [hx])
    (fun s => by obtain ⟨x, y, hx⟩ := umsPC_shape d.priceChange s; rw [hx])
    (fun s => by obtain ⟨x, hx⟩ := umsVol_shape d.volume s; rw [hx])
    (fun s => by obtain ⟨x, y, hx⟩ := umsSig_shape d.signal s; rw [hx])
    (fun s => by obtain ⟨x, y, hx⟩ := umsLlm_shape d.llmAnalysis s; rw [hx])

theorem ums_alerts (d : Payload) (s : DashState) :
    (updateMarketSummary d s).1.alerts = s.alerts :=
  ums_keep (fun s => s.alerts) d s
    (fun s => by obtain ⟨x, hx⟩ := umsLP_shape d.lastPrice s; rw [hx])
    (fun s => by obtain ⟨x, y, hx⟩ := umsPC_shape d.priceChange s; rw [hx])
    (fun s => by obtain ⟨x, hx⟩ := umsVol_shape d.volume s; rw [hx])
    (fun s => by obtain ⟨x, y, hx⟩ := umsSig_shape d.signal s; rw [hx])
    (fun s => by obtain ⟨x, y, hx⟩ := umsLlm_shape d.llmAnalysis s; rw [hx])

theorem ums_logs (d : Payload) (s : DashState) :
    (updateMarketSummary d s).1.logs = s.logs :=
  ums_keep (fun s => s.logs) d s
    (fun s => by obtain ⟨x, hx⟩ := umsLP_shape d.lastPrice s; rw [hx])
    (fun s => by obtain ⟨x, y, hx⟩ := umsPC_shape d.priceChange s; rw [hx])
    (fun s => by obtain ⟨x, hx⟩ := umsVol_shape d.volume s; rw [hx])
    (fun s => by obtain ⟨x, y, hx⟩ := umsSig_shape d.signal s; rw [hx])
    (fun s => by obtain ⟨x, y, hx⟩ := umsLlm_shape d.llmAnalysis s; rw [hx])

theorem ums_rsiChecked (d : Payload) (s : DashState) :
    (updateMarketSummary d s).1.rsiChecked = s.rsiChecked :=
  ums_keep (fun s => s.rsiChecked) d s
    (fun s => by obtain ⟨x, hx⟩ := umsLP_shape d.lastPrice s; rw [hx])
    (fun s => by obtain ⟨x, y, hx⟩ := umsPC_shape d.priceChange s; rw [hx])
    (fun s => by obtain ⟨x, hx⟩ := umsVol_shape d.volume s; rw [hx])
    (fun s => by obtain ⟨x, y, hx⟩ := umsSig_shape d.signal s; rw [hx])
    (fun s => by obtain ⟨x, y, hx⟩ := umsLlm_shape d.llmAnalysis s; rw [hx])

theorem ums_macdChecked (d : Payload) (s : DashState) :
    (updateMarketSummary d s).1.macdChecked = s.macdChecked :=
  ums_keep (fun s => s.macdChecked) d s
    (fun s => by obtain ⟨x, hx⟩ := umsLP_shape d.lastPrice s; rw [hx])
    (fun s => by obtain ⟨x, y, hx⟩ := umsPC_shape d.priceChange s; rw [hx])
    (fun s => by obtain ⟨x, hx⟩ := umsVol_shape d.volume s; rw [hx])
    (fun s => by obtain ⟨x, y, hx⟩ := umsSig_shape d.signal s; rw [hx])
    (fun s => by obtain ⟨x, y, hx⟩ := umsLlm_shape d.llmAnalysis s; rw [hx])

theorem umsLP_falsy {v : JsNum} (h : v.truthy = false) (s : DashState) :
    umsLP v s = (s, false) := by
  cases v with
  | undef => rfl
  | bad => simp [JsNum.truthy] at h
  | num q =>
    have hq : q = 0 := by simpa [JsNum.truthy] using h
    simp [umsLP, hq]

theorem umsPC_falsy {v : JsNum} (h : v.truthy = false) (s : DashState) :
    umsPC v s = (s, false) := by
  cases v with
  | undef => rfl
  | bad => simp [JsNum.truthy] at h
  | num q =>
    have hq : q = 0 := by simpa [JsNum.truthy] using h
    simp [umsPC, hq]

theorem umsVol_falsy {v : JsNum} (h : v.truthy = false) (s : DashState) :
    umsVol v s = (s, false) := by
  cases v with
  | undef => rfl
  | bad => simp [JsNum.truthy] at h
  | num q =>
    have hq : q = 0 := by simpa [JsNum.truthy] using h
    simp [umsVol, hq]

/- Helper lemmas about the fetch paths. -/

theorem fcd_early (out : FetchOutcome) (s : DashState)
    (h : failsBeforeRender out = true) :
    fetchChartData out s = showError "Failed to fetch chart data" s := by
  cases out with
  | netError => rfl
  | ok d =>
    rcases d with ⟨suc, ch, lp, pc, vol, sig, llm, lu⟩
    cases suc with
    | false => rfl
    | true =>
      cases ch with
      | parseError => rfl
      | renderError => rfl
      | good c => simp [failsBeforeRender] at h

theorem fcd_ok (d : Payload) (c : ChartSpec) (s : DashState)
    (hs : d.success = true) (hc : d.chart = .good c) :
    fetchChartData (.ok d) s =
      (if (updateMarketSummary d (renderStep c s)).2 then
        showError "Failed to fetch chart data" (updateMarketSummary d (renderStep c s)).1
       else
        { (updateMarketSummary d (renderStep c s)).1 with
          lastUpdateTime := some d.lastUpdate }) := by
  unfold fetchChartData
  simp only [hs, hc]
  rcases hr : updateMarketSummary d (renderStep c s) with ⟨s2, b⟩
  cases b <;> simp [hr]

theorem fupd_early (out : FetchOutcome) (s : DashState)
    (h : updFailsEarly out s = true) :
    fetchUpdate out s = (logOnly "Failed to fetch update" s, false) := by
  rcases hN : s.lastUpdateTime.isNone with _ | _
  · have hfb : failsBeforeRender out = true := by
      unfold updFailsEarly at h
      rw [hN] at h
      simpa using h
    unfold fetchUpdate
    rw [if_neg (by simp [hN])]
    cases out with
    | netError => rfl
    | ok d =>
      rcases d with ⟨suc, ch, lp, pc, vol, sig, llm, lu⟩
      cases suc with
      | false => rfl
      | true =>
        cases ch with
        | parseError => rfl
        | renderError => rfl
        | good c => simp [failsBeforeRender] at hfb
  · unfold fetchUpdate
    rw [if_pos (by simp [hN])]

theorem fupd_ok (d : Payload) (c : ChartSpec) (s : DashState)
    (hL : s.lastUpdateTime.isNone = false) (hs : d.success = true)
    (hc : d.chart = .good c) :
    fetchUpdate (.ok d) s =
      (if (updateMarketSummary d { s with mainChart := some c }).2 then
        (logOnly "Failed to fetch update"
          (updateMarketSummary d { s with mainChart := some c }).1, false)
       else
        ({ (updateMarketSummary d { s with mainChart := some c }).1 with
           lastUpdateTime := some d.lastUpdate }, true)) := by
  unfold fetchUpdate
  rw [if_neg (by simp [hL])]
  simp only [hs, hc]
  rcases hr : updateMarketSummary d { s with mainChart := some c } with ⟨s2, b⟩
  cases b <;> simp [hr]

/- Arithmetic characterization of the class comparison. -/

theorem toFixedVal2_nonneg {q : ℚ} (h : 0 ≤ q) : 0 ≤ toFixedVal2 q := by
  unfold toFixedVal2
  rw [if_neg (not_lt.mpr h)]
  positivity

theorem pcCls_eq (q : ℚ) :
    pcCls q = if q ≤ -(1/200) then "value negative" else "value positive" := by
  unfold pcCls
  rcases lt_or_le q 0 with hq | hq
  · unfold toFixedVal2
    rw [if_pos hq]
    by_cases hthr : q ≤ -(1/200)
    · rw [if_pos hthr]
      have h1 : (1 : ℚ) ≤ -q * 100 + 1/2 := by linarith
      have h2 : (1 : ℤ) ≤ ⌊-q * 100 + 1/2⌋ := Int.le_floor.mpr (by exact_mod_cast h1)
      have h3 : (1 : ℕ) ≤ (⌊-q * 100 + 1/2⌋).toNat := by omega
      have h4 : (0:ℚ) < ((⌊-q * 100 + 1/2⌋).toNat : ℚ) / 100 := by
        have h5 : (1:ℚ) ≤ ((⌊-q * 100 + 1/2⌋).toNat : ℚ) := by exact_mod_cast h3
        linarith
      rw [if_neg (not_le.mpr (by linarith))]
      rfl
    · rw [if_neg hthr]
      push_neg at hthr
      have h1 : -q * 100 + 1/2 < 1 := by linarith
      have h2 : ⌊-q * 100 + 1/2⌋ < 1 := Int.floor_lt.mpr (by exact_mod_cast h1)
      have h3 : (⌊-q * 100 + 1/2⌋).toNat = 0 := by omega
      rw [h3]
      norm_num
      rfl
  · rw [if_pos (toFixedVal2_nonneg hq)]
    rw [if_neg (not_le.mpr (by linarith : -(1/200 : ℚ) < q))]
    rfl

/- Evaluation of the summary chain when the priceChange block runs. -/

theorem seqT_false (s : DashState) (f : DashState → DashState × Bool) :
    seqT (s, false) f = f s := rfl

theorem seqT_true (s : DashState) (f : DashState → DashState × Bool) :
    seqT (s, true) f = (s, true) := rfl

theorem tail_keep {α : Type} (π : DashState → α) (d : Payload) (s : DashState)
    (h3 : ∀ s, π (umsVol d.volume s).1 = π s)
    (h4 : ∀ s, π (umsSig d.signal s) = π s)
    (h5 : ∀ s, π (umsLlm d.llmAnalysis s) = π s) :
    π (seqT (umsVol d.volume s) fun s =>
        (umsLlm d.llmAnalysis (umsSig d.signal s), false)).1 = π s := by
  rcases hC : umsVol d.volume s with ⟨s3, b3⟩
  have e3 : π s3 = π s := by have := h3 s; rw [hC] at this; exact this
  cases b3 with
  | true => simpa [seqT] using e3
  | false =>
    simp only [seqT]
    exact (h5 (umsSig d.signal s3)).trans ((h4 s3).trans e3)

theorem pc_after (d : Payload) (s1 : DashState) (q : ℚ)
    (hpc : d.priceChange = .num q) (hq : q ≠ 0) :
    ((seqT (umsPC d.priceChange s1) fun s =>
        seqT (umsVol d.volume s) fun s =>
          (umsLlm d.llmAnalysis (umsSig d.signal s), false)).1.priceChangeText
        = toFixed2 q ++ "%") ∧
    ((seqT (umsPC d.priceChange s1) fun s =>
        seqT (umsVol d.volume s) fun s =>
          (umsLlm d.llmAnalysis (umsSig d.signal s), false)).1.priceChangeCls
        = pcCls q) := by
  rw [hpc]
  simp only [umsPC]
  rw [if_neg hq]
  rw [seqT_false]
  constructor
  · rw [tail_keep (fun s => s.priceChangeText) d _
      (fun s => by obtain ⟨x, hx⟩ := umsVol_shape d.volume s; rw [hx])
      (fun s => by obtain ⟨x, y, hx⟩ := umsSig_shape d.signal s; rw [hx])
      (fun s => by obtain ⟨x, y, hx⟩ := umsLlm_shape d.llmAnalysis s; rw [hx])]
  · rw [tail_keep (fun s => s.priceChangeCls) d _
      (fun s => by obtain ⟨x, hx⟩ := umsVol_shape d.volume s; rw [hx])
      (fun s => by obtain ⟨x, y, hx⟩ := umsSig_shape d.signal s; rw [hx])
      (fun s => by obtain ⟨x, y, hx⟩ := umsLlm_shape d.llmAnalysis s; rw [hx])]

theorem ums_pc_set (d : Payload) (s : DashState) (q : ℚ)
    (hpc : d.priceChange = .num q) (hq : q ≠ 0) (hlp : d.lastPrice ≠ .bad) :
    (updateMarketSummary d s).1.priceChangeText = toFixed2 q ++ "%" ∧
    (updateMarketSummary d s).1.priceChangeCls = pcCls q := by
  unfold updateMarketSummary
  rcases hA : umsLP d.lastPrice s with ⟨s1, b1⟩
  have hb1 : b1 = false := by
    cases hLPc : d.lastPrice with
    | undef => rw [hLPc] at hA; exact (congrArg Prod.snd hA).symm
    | bad => exact absurd hLPc hlp
    | num a =>
      rw [hLPc] at hA
      exact (congrArg Prod.snd hA).symm
  subst hb1
  rw [seqT_false]
  exact pc_after d s1 q hpc hq

/- Frame lemmas for the render and timer operations. -/

theorem renderStep_frame (c : ChartSpec) (s : DashState) :
    (renderStep c s).timers = s.timers ∧
    (renderStep c s).updateInterval = s.updateInterval ∧
    (renderStep c s).nextTimerId = s.nextTimerId ∧
    (renderStep c s).timeframe = s.timeframe ∧
    (renderStep c s).rsiChecked = s.rsiChecked ∧
    (renderStep c s).macdChecked = s.macdChecked ∧
    (renderStep c s).mainChart = some c ∧
    (renderStep c s).lastPriceText = s.lastPriceText ∧
    (renderStep c s).priceChangeText = s.priceChangeText ∧
    (renderStep c s).priceChangeCls = s.priceChangeCls ∧
    (renderStep c s).volumeText = s.volumeText ∧
    (renderStep c s).signalMessage = s.signalMessage ∧
    (renderStep c s).signalDetails = s.signalDetails ∧
    (renderStep c s).llmMessage = s.llmMessage ∧
    (renderStep c s).llmDetails = s.llmDetails ∧
    (renderStep c s).lastUpdateTime = s.lastUpdateTime ∧
    (renderStep c s).alerts = s.alerts ∧
    (renderStep c s).logs = s.logs := by
  unfold renderStep
  rcases hm : s.mainChart with _ | c0 <;> simp

theorem renderStep_cc (c : ChartSpec) (s : DashState) :
    (renderStep c s).createdCount =
      (match s.mainChart with
       | none => s.createdCount + 1
       | some _ => s.createdCount) := by
  unfold renderStep
  rcases hm : s.mainChart with _ | c0 <;> rfl

theorem fcd_frame (out : FetchOutcome) (s : DashState) :
    (fetchChartData out s).timers = s.timers ∧
    (fetchChartData out s).updateInterval = s.updateInterval ∧
    (fetchChartData out s).nextTimerId = s.nextTimerId ∧
    (fetchChartData out s).timeframe = s.timeframe ∧
    (fetchChartData out s).rsiChecked = s.rsiChecked ∧
    (fetchChartData out s).macdChecked = s.macdChecked := by
  cases out with
  | netError => exact ⟨rfl, rfl, rfl, rfl, rfl, rfl⟩
  | ok d =>
    cases hs : d.success with
    | false =>
      simp only [fetchChartData]
      rw [hs]
      exact ⟨rfl, rfl, rfl, rfl, rfl, rfl⟩
    | true =>
      cases hch : d.chart with
      | parseError =>
        simp only [fetchChartData]
        rw [hs, hch]
        exact ⟨rfl, rfl, rfl, rfl, rfl, rfl⟩
      | renderError =>
        simp only [fetchChartData]
        rw [hs, hch]
        exact ⟨rfl, rfl, rfl, rfl, rfl, rfl⟩
      | good c =>
        rw [fcd_ok d c s hs hch]
        obtain ⟨f1, f2, f3, f4, f5, f6, _⟩ := renderStep_frame c s
        have u1 := ums_timers d (renderStep c s)
        have u2 := ums_updateInterval d (renderStep c s)
        have u3 := ums_nextTimerId d (renderStep c s)
        have u4 := ums_timeframe d (renderStep c s)
        have u5 := ums_rsiChecked d (renderStep c s)
        have u6 := ums_macdChecked d (renderStep c s)
        by_cases hb : (updateMarketSummary d (renderStep c s)).2
        · rw [if_pos hb]
          exact ⟨u1.trans f1, u2.trans f2, u3.trans f3, u4.trans f4,
            u5.trans f5, u6.trans f6⟩
        · rw [if_neg hb]
          exact ⟨u1.trans f1, u2.trans f2, u3.trans f3, u4.trans f4,
            u5.trans f5, u6.trans f6⟩

theorem fcd_chart_set (d : Payload) (c : ChartSpec) (s : DashState)
    (hs : d.success = true) (hc : d.chart = .good c) :
    (fetchChartData (.ok d) s).mainChart = some c := by
  rw [fcd_ok d c s hs hc]
  obtain ⟨_, _, _, _, _, _, f_mc, _⟩ := renderStep_frame c s
  have u := ums_mainChart d (renderStep c s)
  by_cases hb : (updateMarketSummary d (renderStep c s)).2
  · rw [if_pos hb]
    exact u.trans f_mc
  · rw [if_neg hb]
    exact u.trans f_mc

theorem fcd_createdCount (d : Payload) (c : ChartSpec) (s : DashState)
    (hs : d.success = true) (hc : d.chart = .good c) :
    (fetchChartData (.ok d) s).createdCount =
      (match s.mainChart with
       | none => s.createdCount + 1
       | some _ => s.createdCount) := by
  rw [fcd_ok d c s hs hc]
  have u := ums_createdCount d (renderStep c s)
  by_cases hb : (updateMarketSummary d (renderStep c s)).2
  · rw [if_pos hb]
    exact u.trans (renderStep_cc c s)
  · rw [if_neg hb]
    exact u.trans (renderStep_cc c s)

theorem srtu_frame (s : DashState) :
    display (startRealTimeUpdates s) = display s ∧
    (startRealTimeUpdates s).mainChart = s.mainChart ∧
    (startRealTimeUpdates s).createdCount = s.createdCount ∧
    (startRealTimeUpdates s).alerts = s.alerts ∧
    (startRealTimeUpdates s).logs = s.logs ∧
    (startRealTimeUpdates s).rsiChecked = s.rsiChecked ∧
    (startRealTimeUpdates s).macdChecked = s.macdChecked := by
  unfold startRealTimeUpdates
  rcases hm : s.updateInterval with _ | tid <;> simp [display]

theorem srtu_tracked (s : DashState) (h : timersTracked s) :
    (startRealTimeUpdates s).timers =
      [⟨s.nextTimerId, intervalFor s.timeframe⟩] ∧
    (startRealTimeUpdates s).updateInterval = some s.nextTimerId := by
  rcases h with ⟨h1, h2⟩ | ⟨t, h1, h2⟩
  · simp [startRealTimeUpdates, h1, h2]
  · simp [startRealTimeUpdates, h1, h2]

theorem ums_full (d : Payload) (s : DashState) (a b' v : ℚ) (sg lm : SignalData)
    (h1 : d.lastPrice = .num a) (h2 : d.priceChange = .num b')
    (h3 : d.volume = .num v) (h4 : d.signal = some sg)
    (h5 : d.llmAnalysis = some lm)
    (ha : a ≠ 0) (hb : b' ≠ 0) (hv : v ≠ 0) :
    updateMarketSummary d s =
      ({ s with
         lastPriceText := toFixed2 a,
         priceChangeText := toFixed2 b' ++ "%", priceChangeCls := pcCls b',
         volumeText := formatVolume v,
         signalMessage := sg.message, signalDetails := sg.details.getD "",
         llmMessage := lm.message, llmDetails := lm.details.getD "" }, false) := by
  unfold updateMarketSummary
  rw [h1, h2, h3, h4, h5]
  simp only [umsLP, umsPC, umsVol, umsSig, umsLlm]
  rw [if_neg ha, seqT_false, if_neg hb, seqT_false, if_neg hv, seqT_false]

theorem fcd_full_display (d : Payload) (c : ChartSpec) (a b' v : ℚ)
    (sg lm : SignalData)
    (hs : d.success = true) (hc : d.chart = .good c)
    (h1 : d.lastPrice = .num a) (h2 : d.priceChange = .num b')
    (h3 : d.volume = .num v) (h4 : d.signal = some sg)
    (h5 : d.llmAnalysis = some lm)
    (ha : a ≠ 0) (hb : b' ≠ 0) (hv : v ≠ 0) (s : DashState) :
    display (fetchChartData (.ok d) s) =
      (some c, toFixed2 a, toFixed2 b' ++ "%", pcCls b', formatVolume v,
       sg.message, sg.details.getD "", lm.message, lm.details.getD "",
       some d.lastUpdate) := by
  rw [fcd_ok d c s hs hc]
  rw [ums_full d (renderStep c s) a b' v sg lm h1 h2 h3 h4 h5 ha hb hv]
  rw [if_neg (by simp)]
  obtain ⟨_, _, _, _, _, _, f_mc, _⟩ := renderStep_frame c s
  simp [display, f_mc]

/- Claim theorems. -/

/-- C5: formatVolume returns the value divided by 1e9 to two decimals with
suffix B when the value is at least 1e9, else divided by 1e6 with suffix M
when at least 1e6, else divided by 1e3 with suffix K when at least 1e3, else
the value itself to two decimals with no suffix; in particular 1500000 gives
1.50M, 2300 gives 2.30K and 500 gives 500.00. -/
theorem C5_formatVolume_spec :
    (∀ v : ℚ,
      (1000000000 ≤ v → formatVolume v = toFixed2 (v / 1000000000) ++ "B") ∧
      (1000000 ≤ v → v < 1000000000 → formatVolume v = toFixed2 (v / 1000000) ++ "M") ∧
      (1000 ≤ v → v < 1000000 → formatVolume v = toFixed2 (v / 1000) ++ "K") ∧
      (v < 1000 → formatVolume v = toFixed2 v)) ∧
    formatVolume 1500000 = "1.50M" ∧
    formatVolume 2300 = "2.30K" ∧
    formatVolume 500 = "500.00" := by
  refine ⟨fun v => ⟨?_, ?_, ?_, ?_⟩, ?_, ?_, ?_⟩
  · intro h
    unfold formatVolume
    rw [if_pos h]
  · intro h1 h2
    unfold formatVolume
    rw [if_neg (not_le.mpr h2), if_pos h1]
  · intro h1 h2
    unfold formatVolume
    rw [if_neg (not_le.mpr (lt_trans h2 (by norm_num))), if_neg (not_le.mpr h2),
      if_pos h1]
  · intro h
    unfold formatVolume
    rw [if_neg (not_le.mpr (lt_trans h (by norm_num))),
      if_neg (not_le.mpr (lt_trans h (by norm_num))), if_neg (not_le.mpr h)]
  · with_unfolding_all rfl
  · with_unfolding_all rfl
  · with_unfolding_all rfl

/-- Witness for C5 exercising every branch of the cascade. -/
theorem C5_witness :
    (1000000 : ℚ) ≤ 1500000 ∧ (1500000 : ℚ) < 1000000000 ∧
    formatVolume 1500000 = toFixed2 (1500000 / 1000000) ++ "M" ∧
    formatVolume 2500000000 = toFixed2 (2500000000 / 1000000000) ++ "B" ∧
    formatVolume 2300 = toFixed2 (2300 / 1000) ++ "K" ∧
    formatVolume 500 = toFixed2 500 :=
  ⟨by norm_num, by norm_num,
   (C5_formatVolume_spec.1 1500000).2.1 (by norm_num) (by norm_num),
   (C5_formatVolume_spec.1 2500000000).1 (by norm_num),
   (C5_formatVolume_spec.1 2300).2.2.1 (by norm_num) (by norm_num),
   (C5_formatVolume_spec.1 500).2.2.2 (by norm_num)⟩

/-- C6 counterexample: the claim says a negative priceChange gets the negative
class, but for the negative value -0.001 the code formats the string -0.00,
and comparing that string against 0 coerces it to minus zero, which passes the
nonnegativity test: the element shows -0.00% with the positive class. -/
theorem C6_counterexample :
    ((-1/1000 : ℚ) < 0) ∧
    (updateMarketSummary (pcPayload (-1/1000)) initialState).1.priceChangeText
      = "-0.00%" ∧
    (updateMarketSummary (pcPayload (-1/1000)) initialState).1.priceChangeCls
      = "value positive" := by
  refine ⟨by norm_num, ?_, ?_⟩
  · with_unfolding_all rfl
  · with_unfolding_all rfl

/-- C6 amended: for every reached non zero numeric priceChange the text is the
two decimal rendering followed by a percent sign, and the class is value
negative exactly when the value is at most -1/200 (the rounded string then
reads back as a strictly negative number), else value positive; values in the
open interval from -1/200 to 0 therefore get the positive class. -/
theorem C6_price_change_amended (q : ℚ) (d : Payload) (s : DashState)
    (hpc : d.priceChange = .num q) (hq : q ≠ 0) (hlp : d.lastPrice ≠ .bad) :
    (updateMarketSummary d s).1.priceChangeText = toFixed2 q ++ "%" ∧
    (updateMarketSummary d s).1.priceChangeCls =
      (if q ≤ -(1/200) then "value negative" else "value positive") := by
  obtain ⟨h1, h2⟩ := ums_pc_set d s q hpc hq hlp
  exact ⟨h1, h2.trans (pcCls_eq q)⟩

/-- Witness for C6 at the input -1.25, which renders -1.25% with the negative
class. -/
theorem C6_witness :
    ((-5/4 : ℚ) ≠ 0) ∧
    (updateMarketSummary (pcPayload (-5/4)) initialState).1.priceChangeText
      = toFixed2 (-5/4) ++ "%" ∧
    (updateMarketSummary (pcPayload (-5/4)) initialState).1.priceChangeCls
      = (if (-5/4 : ℚ) ≤ -(1/200) then "value negative" else "value positive") := by
  refine ⟨by norm_num, ?_, ?_⟩
  · exact (C6_price_change_amended (-5/4) (pcPayload (-5/4)) initialState rfl
      (by norm_num) (by simp [pcPayload])).1
  · exact (C6_price_change_amended (-5/4) (pcPayload (-5/4)) initialState rfl
      (by norm_num) (by simp [pcPayload])).2

/-- C9: updateMarketInfo of the second variant is well defined exactly on
candle arrays with at least two elements; it then shows the last close to two
decimals and the change (last.close - prev.close) / prev.close * 100 to two
decimals with a percent sign, colored by nonnegativity of the change; on
shorter arrays the access to the previous candle is undefined and the update
fails. -/
theorem C9_updateMarketInfo_spec :
    (∀ (xs : List Candle) (a b : Candle),
      updateMarketInfo (xs ++ [a, b]) =
        some { lastPriceText := toFixed2 b.close,
               priceChangeText :=
                 toFixed2 (((b.close - a.close) / a.close) * 100) ++ "%",
               priceChangeColor :=
                 if ((b.close - a.close) / a.close) * 100 ≥ 0 then
                   "var(--success-color)"
                 else "var(--error-color)",
               volumeShown := b.volume }) ∧
    (∀ data : List Candle, data.length < 2 → updateMarketInfo data = none) := by
  constructor
  · intro xs a b
    unfold updateMarketInfo
    have e1 : jsIndex (xs ++ [a, b]) (((xs ++ [a, b]).length : ℤ) - 1) = some b := by
      unfold jsIndex
      rw [if_neg (by simp only [List.length_append, List.length_cons,
        List.length_nil]; omega)]
      have ht : ((((xs ++ [a, b]).length : ℤ) - 1)).toNat = xs.length + 1 := by
        simp only [List.length_append, List.length_cons, List.length_nil]
        omega
      rw [ht, List.get?_append_right (by omega)]
      simp
    have e2 : jsIndex (xs ++ [a, b]) (((xs ++ [a, b]).length : ℤ) - 2) = some a := by
      unfold jsIndex
      rw [if_neg (by simp only [List.length_append, List.length_cons,
        List.length_nil]; omega)]
      have ht : ((((xs ++ [a, b]).length : ℤ) - 2)).toNat = xs.length := by
        simp only [List.length_append, List.length_cons, List.length_nil]
        omega
      rw [ht, List.get?_append_right (by omega)]
      simp
    rw [e1, e2]
  · intro data h
    rcases data with _ | ⟨c, _ | ⟨e, tl⟩⟩
    · rfl
    · rfl
    · simp at h
      omega

/-- Witness for C9 on the empty candle array. -/
theorem C9_witness :
    ([] : List Candle).length < 2 ∧ updateMarketInfo ([] : List Candle) = none :=
  ⟨by decide, C9_updateMarketInfo_spec.2 [] (by decide)⟩

/-- C10: updateMarketSummary writes a display field only when the payload
field is truthy: an absent, null or zero lastPrice, priceChange or volume and
an absent signal or llmAnalysis leave the matching element texts, and for
priceChange also the class, unchanged. -/
theorem C10_truthy_guards (d : Payload) (s : DashState) :
    (d.lastPrice.truthy = false →
      (updateMarketSummary d s).1.lastPriceText = s.lastPriceText) ∧
    (d.priceChange.truthy = false →
      (updateMarketSummary d s).1.priceChangeText = s.priceChangeText ∧
      (updateMarketSummary d s).1.priceChangeCls = s.priceChangeCls) ∧
    (d.volume.truthy = false →
      (updateMarketSummary d s).1.volumeText = s.volumeText) ∧
    (d.signal = none →
      (updateMarketSummary d s).1.signalMessage = s.signalMessage ∧
      (updateMarketSummary d s).1.signalDetails = s.signalDetails) ∧
    (d.llmAnalysis = none →
      (updateMarketSummary d s).1.llmMessage = s.llmMessage ∧
      (updateMarketSummary d s).1.llmDetails = s.llmDetails) := by
  refine ⟨?_, ?_, ?_, ?_, ?_⟩
  · intro h
    exact ums_keep (fun s => s.lastPriceText) d s
      (fun s => by rw [umsLP_falsy h])
      (fun s => by obtain ⟨x, y, hx⟩ := umsPC_shape d.priceChange s; rw [hx])
      (fun s => by obtain ⟨x, hx⟩ := umsVol_shape d.volume s; rw [hx])
      (fun s => by obtain ⟨x, y, hx⟩ := umsSig_shape d.signal s; rw [hx])
      (fun s => by obtain ⟨x, y, hx⟩ := umsLlm_shape d.llmAnalysis s; rw [hx])
  · intro h
    have hh := ums_keep (fun s => (s.priceChangeText, s.priceChangeCls)) d s
      (fun s => by obtain ⟨x, hx⟩ := umsLP_shape d.lastPrice s; rw [hx])
      (fun s => by rw [umsPC_falsy h])
      (fun s => by obtain ⟨x, hx⟩ := umsVol_shape d.volume s; rw [hx])
      (fun s => by obtain ⟨x, y, hx⟩ := umsSig_shape d.signal s; rw [hx])
      (fun s => by obtain ⟨x, y, hx⟩ := umsLlm_shape d.llmAnalysis s; rw [hx])
    exact ⟨congrArg Prod.fst hh, congrArg Prod.snd hh⟩
  · intro h
    exact ums_keep (fun s => s.volumeText) d s
      (fun s => by obtain ⟨x, hx⟩ := umsLP_shape d.lastPrice s; rw [hx])
      (fun s => by obtain ⟨x, y, hx⟩ := umsPC_shape d.priceChange s; rw [hx])
      (fun s => by rw [umsVol_falsy h])
      (fun s => by obtain ⟨x, y, hx⟩ := umsSig_shape d.signal s; rw [hx])
      (fun s => by obtain ⟨x, y, hx⟩ := umsLlm_shape d.llmAnalysis s; rw [hx])
  · intro h
    have hh := ums_keep (fun s => (s.signalMessage, s.signalDetails)) d s
      (fun s => by obtain ⟨x, hx⟩ := umsLP_shape d.lastPrice s; rw [hx])
      (fun s => by obtain ⟨x, y, hx⟩ := umsPC_shape d.priceChange s; rw [hx])
      (fun s => by obtain ⟨x, hx⟩ := umsVol_shape d.volume s; rw [hx])
      (fun s => by rw [h]; rfl)
      (fun s => by obtain ⟨x, y, hx⟩ := umsLlm_shape d.llmAnalysis s; rw [hx])
    exact ⟨congrArg Prod.fst hh, congrArg Prod.snd hh⟩
  · intro h
    have hh := ums_keep (fun s => (s.llmMessage, s.llmDetails)) d s
      (fun s => by obtain ⟨x, hx⟩ := umsLP_shape d.lastPrice s; rw [hx])
      (fun s => by obtain ⟨x, y, hx⟩ := umsPC_shape d.priceChange s; rw [hx])
      (fun s => by obtain ⟨x, hx⟩ := umsVol_shape d.volume s; rw [hx])
      (fun s => by obtain ⟨x, y, hx⟩ := umsSig_shape d.signal s; rw [hx])
      (fun s => by rw [h]; rfl)
    exact ⟨congrArg Prod.fst hh, congrArg Prod.snd hh⟩

/-- Witness for C10: a payload with a zero priceChange and no other summary
field leaves every summary element unchanged. -/
theorem C10_witness :
    (pcPayload 0).priceChange.truthy = false ∧
    (updateMarketSummary (pcPayload 0) initialState).1.priceChangeText
      = initialState.priceChangeText ∧
    (updateMarketSummary (pcPayload 0) initialState).1.lastPriceText
      = initialState.lastPriceText ∧
    (updateMarketSummary (pcPayload 0) initialState).1.volumeText
      = initialState.volumeText ∧
    (updateMarketSummary (pcPayload 0) initialState).1.signalMessage
      = initialState.signalMessage ∧
    (updateMarketSummary (pcPayload 0) initialState).1.llmMessage
      = initialState.llmMessage :=
  ⟨by with_unfolding_all decide,
   ((C10_truthy_guards (pcPayload 0) initialState).2.1
     (by with_unfolding_all decide)).1,
   (C10_truthy_guards (pcPayload 0) initialState).1 rfl,
   (C10_truthy_guards (pcPayload 0) initialState).2.2.1 rfl,
   ((C10_truthy_guards (pcPayload 0) initialState).2.2.2.1 rfl).1,
   ((C10_truthy_guards (pcPayload 0) initialState).2.2.2.2 rfl).1⟩

/-- C3: an invocation of toggleIndicator whose backend request fails, by a
rejected fetch or a success false body, performs no state change other than
surfacing the error: the displayed state, both toggle checkboxes, and in
particular the toggled indicator control, are exactly as before the
invocation, and the error alert is appended. -/
theorem C3_toggle_failure (indicator : String) (tout : ToggleOutcome)
    (fout : FetchOutcome) (s : DashState) (h : toggleFailed tout = true) :
    toggleIndicator indicator tout fout s =
      showError ("Failed to toggle " ++ indicator) s ∧
    display (toggleIndicator indicator tout fout s) = display s ∧
    (toggleIndicator indicator tout fout s).rsiChecked = s.rsiChecked ∧
    (toggleIndicator indicator tout fout s).macdChecked = s.macdChecked ∧
    (toggleIndicator indicator tout fout s).alerts =
      s.alerts ++ ["Failed to toggle " ++ indicator] := by
  have he : toggleIndicator indicator tout fout s =
      showError ("Failed to toggle " ++ indicator) s := by
    cases tout with
    | netError => rfl
    | ok b =>
      cases b with
      | false => rfl
      | true => simp [toggleFailed] at h
  refine ⟨he, ?_, ?_, ?_, ?_⟩ <;> rw [he] <;> rfl

/-- Witness for C3: a success false response to the rsi toggle. -/
theorem C3_witness :
    toggleFailed (.ok false) = true ∧
    toggleIndicator "rsi" (.ok false) .netError initialState =
      showError ("Failed to toggle " ++ "rsi") initialState :=
  ⟨rfl, (C3_toggle_failure "rsi" (.ok false) .netError initialState rfl).1⟩

/-- C1 counterexample: a background poll can fail after the chart render
step. With a successful envelope whose chart renders but whose lastPrice is a
truthy non number, the summary step throws after Plotly.react already redrew
the chart: the poll fails, yet the displayed state changed. -/
theorem C1_counterexample :
    (fetchUpdate (.ok (badSummaryPayload ⟨2, 2⟩ "t2"))
      (renderedState ⟨1, 1⟩ "t1" "1h")).2 = false ∧
    (fetchUpdate (.ok (badSummaryPayload ⟨2, 2⟩ "t2"))
      (renderedState ⟨1, 1⟩ "t1" "1h")).1.mainChart = some ⟨2, 2⟩ ∧
    (renderedState ⟨1, 1⟩ "t1" "1h").mainChart = some ⟨1, 1⟩ ∧
    display (fetchUpdate (.ok (badSummaryPayload ⟨2, 2⟩ "t2"))
        (renderedState ⟨1, 1⟩ "t1" "1h")).1 ≠
      display (renderedState ⟨1, 1⟩ "t1" "1h") := by
  refine ⟨rfl, rfl, rfl, ?_⟩
  intro h
  have hm : (fetchUpdate (.ok (badSummaryPayload ⟨2, 2⟩ "t2"))
      (renderedState ⟨1, 1⟩ "t1" "1h")).1.mainChart =
      (renderedState ⟨1, 1⟩ "t1" "1h").mainChart :=
    congrArg (fun p => p.1) h
  exact absurd hm (by decide)

/-- C1 amended: a background poll that fails at or before the chart render
step (null lastUpdateTime, rejected fetch, success false, unparsable chart or
Plotly rejection) leaves every displayed field unchanged, is only logged and
never alerted; a poll whose summary step throws after a successful render
leaves the chart showing the new payload while lastUpdateTime keeps its prior
value, still without an alert; and a poll that completes shows exactly the
newly fetched chart and records the new lastUpdate. -/
theorem C1_poll_failure_amended :
    (∀ (out : FetchOutcome) (s : DashState), updFailsEarly out s = true →
      display (fetchUpdate out s).1 = display s ∧
      (fetchUpdate out s).2 = false ∧
      (fetchUpdate out s).1.alerts = s.alerts) ∧
    (∀ (d : Payload) (c : ChartSpec) (s : DashState),
      s.lastUpdateTime.isNone = false → d.success = true → d.chart = .good c →
      (updateMarketSummary d { s with mainChart := some c }).2 = true →
      (fetchUpdate (.ok d) s).1.mainChart = some c ∧
      (fetchUpdate (.ok d) s).1.lastUpdateTime = s.lastUpdateTime ∧
      (fetchUpdate (.ok d) s).2 = false ∧
      (fetchUpdate (.ok d) s).1.alerts = s.alerts) ∧
    (∀ (d : Payload) (c : ChartSpec) (s : DashState),
      s.lastUpdateTime.isNone = false → d.success = true → d.chart = .good c →
      (updateMarketSummary d { s with mainChart := some c }).2 = false →
      (fetchUpdate (.ok d) s).1.mainChart = some c ∧
      (fetchUpdate (.ok d) s).1.lastUpdateTime = some d.lastUpdate ∧
      (fetchUpdate (.ok d) s).2 = true) := by
  refine ⟨?_, ?_, ?_⟩
  · intro out s h
    rw [fupd_early out s h]
    exact ⟨rfl, rfl, rfl⟩
  · intro d c s hL hs hc hb
    rw [fupd_ok d c s hL hs hc, if_pos hb]
    have u1 := ums_mainChart d { s with mainChart := some c }
    have u2 := ums_lastUpdateTime d { s with mainChart := some c }
    have u3 := ums_alerts d { s with mainChart := some c }
    exact ⟨u1, u2, rfl, u3⟩
  · intro d c s hL hs hc hb
    rw [fupd_ok d c s hL hs hc, if_neg (by simp [hb])]
    have u1 := ums_mainChart d { s with mainChart := some c }
    exact ⟨u1, rfl, rfl⟩

/-- Witness for C1: a rejected poll leaves the display unchanged; a summary
throw after a successful render keeps the old lastUpdateTime; a completed
poll flips to the new chart. -/
theorem C1_witness :
    updFailsEarly .netError (renderedState ⟨1, 1⟩ "t1" "1h") = true ∧
    display (fetchUpdate .netError (renderedState ⟨1, 1⟩ "t1" "1h")).1 =
      display (renderedState ⟨1, 1⟩ "t1" "1h") ∧
    (updateMarketSummary (badSummaryPayload ⟨2, 2⟩ "t2")
      { renderedState ⟨1, 1⟩ "t1" "1h" with mainChart := some ⟨2, 2⟩ }).2 = true ∧
    (fetchUpdate (.ok (badSummaryPayload ⟨2, 2⟩ "t2"))
      (renderedState ⟨1, 1⟩ "t1" "1h")).1.lastUpdateTime =
      (renderedState ⟨1, 1⟩ "t1" "1h").lastUpdateTime ∧
    (fetchUpdate (.ok (okPayload ⟨5, 50⟩ "t9"))
      (renderedState ⟨1, 1⟩ "t1" "1h")).2 = true :=
  ⟨rfl,
   (C1_poll_failure_amended.1 .netError (renderedState ⟨1, 1⟩ "t1" "1h") rfl).1,
   rfl,
   (C1_poll_failure_amended.2.1 (badSummaryPayload ⟨2, 2⟩ "t2") ⟨2, 2⟩
     (renderedState ⟨1, 1⟩ "t1" "1h") rfl rfl rfl rfl).2.1,
   (C1_poll_failure_amended.2.2 (okPayload ⟨5, 50⟩ "t9") ⟨5, 50⟩
     (renderedState ⟨1, 1⟩ "t1" "1h") rfl rfl rfl rfl).2.2⟩

/-- C2 counterexample: switching the timeframe from 1h to 1m neither cancels
nor restarts the timer: the single live timer keeps the 1h cadence of 60000,
not the 1000 of the table entry for 1m. -/
theorem C2_counterexample :
    (onTimeframeChange "1m" .netError (renderedState ⟨1, 1⟩ "t" "1h")).timers =
      [⟨0, 60000⟩] ∧
    intervalFor "1m" = 1000 ∧
    (onTimeframeChange "1m" .netError
        (renderedState ⟨1, 1⟩ "t" "1h")).timers.map Timer.cadence ≠
      [intervalFor "1m"] := by
  refine ⟨rfl, rfl, ?_⟩
  intro h
  have hm : ([⟨0, 60000⟩] : List Timer).map Timer.cadence = [1000] := h
  exact absurd hm (by decide)

/-- C2 amended: the timeframe change handler only sets the timeframe field
and refetches; the live timer set and the held interval id are exactly those
from before the change, so the single active timer keeps the cadence chosen
when startRealTimeUpdates last ran. startRealTimeUpdates itself does cancel
the held timer and registers exactly one timer at the table cadence of the
current timeframe. -/
theorem C2_timeframe_change_amended :
    (∀ (v : String) (out : FetchOutcome) (s : DashState),
      (onTimeframeChange v out s).timers = s.timers ∧
      (onTimeframeChange v out s).updateInterval = s.updateInterval ∧
      (onTimeframeChange v out s).nextTimerId = s.nextTimerId ∧
      (onTimeframeChange v out s).timeframe = v) ∧
    (∀ s : DashState, timersTracked s →
      (startRealTimeUpdates s).timers =
        [⟨s.nextTimerId, intervalFor s.timeframe⟩] ∧
      (startRealTimeUpdates s).updateInterval = some s.nextTimerId) := by
  constructor
  · intro v out s
    obtain ⟨t1, t2, t3, t4, _⟩ := fcd_frame out { s with timeframe := v }
    exact ⟨t1, t2, t3, t4⟩
  · intro s h
    exact srtu_tracked s h

/-- Witness for C2 on the fresh page state. -/
theorem C2_witness :
    timersTracked initialState ∧
    (startRealTimeUpdates initialState).timers =
      [⟨initialState.nextTimerId, intervalFor initialState.timeframe⟩] :=
  ⟨Or.inl ⟨rfl, rfl⟩,
   (C2_timeframe_change_amended.2 initialState (Or.inl ⟨rfl, rfl⟩)).1⟩

/-- C4 counterexample: no request id exists anywhere in the code. A response
to an older request processed after the render of a newer one overwrites that
render and changes the displayed state. -/
theorem C4_counterexample :
    (fetchChartData (.ok (okPayload ⟨1, 10⟩ "t1"))
        (fetchChartData (.ok (okPayload ⟨2, 20⟩ "t2")) initialState)).mainChart =
      some ⟨1, 10⟩ ∧
    (fetchChartData (.ok (okPayload ⟨2, 20⟩ "t2")) initialState).mainChart =
      some ⟨2, 20⟩ ∧
    display (fetchChartData (.ok (okPayload ⟨1, 10⟩ "t1"))
        (fetchChartData (.ok (okPayload ⟨2, 20⟩ "t2")) initialState)) ≠
      display (fetchChartData (.ok (okPayload ⟨2, 20⟩ "t2")) initialState) := by
  refine ⟨rfl, rfl, ?_⟩
  intro h
  have hm : (fetchChartData (.ok (okPayload ⟨1, 10⟩ "t1"))
      (fetchChartData (.ok (okPayload ⟨2, 20⟩ "t2")) initialState)).mainChart =
      (fetchChartData (.ok (okPayload ⟨2, 20⟩ "t2")) initialState).mainChart :=
    congrArg (fun p => p.1) h
  exact absurd hm (by decide)

/-- C4 amended: fetches carry no request id and no staleness check exists:
every response with a successful envelope and a renderable chart is applied
when it arrives, both on the chart-data path and on the update path, so the
displayed chart is that of the last arrival, not of the newest request. -/
theorem C4_no_request_ids_amended :
    (∀ (d : Payload) (c : ChartSpec) (s : DashState),
      d.success = true → d.chart = .good c →
      (fetchChartData (.ok d) s).mainChart = some c) ∧
    (∀ (d : Payload) (c : ChartSpec) (s : DashState),
      s.lastUpdateTime.isNone = false → d.success = true → d.chart = .good c →
      (fetchUpdate (.ok d) s).1.mainChart = some c) := by
  constructor
  · intro d c s hs hc
    exact fcd_chart_set d c s hs hc
  · intro d c s hL hs hc
    rw [fupd_ok d c s hL hs hc]
    have u1 := ums_mainChart d { s with mainChart := some c }
    by_cases hb : (updateMarketSummary d { s with mainChart := some c }).2
    · rw [if_pos hb]
      exact u1
    · rw [if_neg hb]
      exact u1

/-- Witness for C4: a successful response is applied unconditionally on both
fetch paths. -/
theorem C4_witness :
    (okPayload ⟨3, 30⟩ "t3").success = true ∧
    (fetchChartData (.ok (okPayload ⟨3, 30⟩ "t3")) initialState).mainChart =
      some ⟨3, 30⟩ ∧
    (fetchUpdate (.ok (okPayload ⟨4, 40⟩ "t4"))
      (renderedState ⟨1, 1⟩ "t1" "1h")).1.mainChart = some ⟨4, 40⟩ :=
  ⟨rfl,
   C4_no_request_ids_amended.1 (okPayload ⟨3, 30⟩ "t3") ⟨3, 30⟩
     initialState rfl rfl,
   C4_no_request_ids_amended.2 (okPayload ⟨4, 40⟩ "t4") ⟨4, 40⟩
     (renderedState ⟨1, 1⟩ "t1" "1h") rfl rfl rfl⟩

/-- C7 counterexample: rendering is not idempotently convergent for the whole
displayed state. Summary fields are written only when present: after a first
payload carrying a volume and a second one without, the volume text still
shows the first payload, while rendering the second payload alone leaves the
initial text. -/
theorem C7_counterexample :
    (fetchChartData (.ok (okPayload ⟨2, 20⟩ "t2"))
        (fetchChartData (.ok sigPayload) initialState)).signalMessage = "s1" ∧
    (fetchChartData (.ok (okPayload ⟨2, 20⟩ "t2"))
        initialState).signalMessage = "" ∧
    display (fetchChartData (.ok (okPayload ⟨2, 20⟩ "t2"))
        (fetchChartData (.ok sigPayload) initialState)) ≠
      display (fetchChartData (.ok (okPayload ⟨2, 20⟩ "t2")) initialState) := by
  refine ⟨rfl, rfl, ?_⟩
  intro h
  have hm : (fetchChartData (.ok (okPayload ⟨2, 20⟩ "t2"))
      (fetchChartData (.ok sigPayload) initialState)).signalMessage =
      (fetchChartData (.ok (okPayload ⟨2, 20⟩ "t2"))
        initialState).signalMessage :=
    congrArg (fun p => p.2.2.2.2.2.1) h
  exact absurd hm (by decide)

/-- C7 amended: the chart itself does converge: after any two renders the
chart shows exactly the later successful payload, the first render creates
the widget and a subsequent render updates it in place without creating a
second one; and the full displayed state converges exactly when the newer
payload carries every summary field truthy, in which case the display after
rendering P1 then P2 equals the display after rendering P2 alone. -/
theorem C7_render_convergence_amended :
    (∀ (d1 d2 : Payload) (c1 c2 : ChartSpec) (s : DashState),
      d1.success = true → d1.chart = .good c1 →
      d2.success = true → d2.chart = .good c2 →
      (fetchChartData (.ok d2) (fetchChartData (.ok d1) s)).mainChart =
        (fetchChartData (.ok d2) s).mainChart) ∧
    (∀ (d1 d2 : Payload) (c1 c2 : ChartSpec) (s : DashState),
      s.mainChart = none →
      d1.success = true → d1.chart = .good c1 →
      d2.success = true → d2.chart = .good c2 →
      (fetchChartData (.ok d1) s).createdCount = s.createdCount + 1 ∧
      (fetchChartData (.ok d2) (fetchChartData (.ok d1) s)).createdCount =
        s.createdCount + 1) ∧
    (∀ (d2 : Payload) (c2 : ChartSpec) (a b' v : ℚ) (sg lm : SignalData)
       (s s' : DashState),
      d2.success = true → d2.chart = .good c2 →
      d2.lastPrice = .num a → d2.priceChange = .num b' → d2.volume = .num v →
      d2.signal = some sg → d2.llmAnalysis = some lm →
      a ≠ 0 → b' ≠ 0 → v ≠ 0 →
      display (fetchChartData (.ok d2) s) =
        display (fetchChartData (.ok d2) s')) := by
  refine ⟨?_, ?_, ?_⟩
  · intro d1 d2 c1 c2 s h1s h1c h2s h2c
    rw [fcd_chart_set d2 c2 _ h2s h2c, fcd_chart_set d2 c2 s h2s h2c]
  · intro d1 d2 c1 c2 s hnone h1s h1c h2s h2c
    have e1 : (fetchChartData (.ok d1) s).createdCount = s.createdCount + 1 := by
      rw [fcd_createdCount d1 c1 s h1s h1c, hnone]
    refine ⟨e1, ?_⟩
    rw [fcd_createdCount d2 c2 _ h2s h2c, fcd_chart_set d1 c1 s h1s h1c]
    exact e1
  · intro d2 c2 a b' v sg lm s s' h2s h2c hlp hpc hvol hsig hllm ha hb hv
    rw [fcd_full_display d2 c2 a b' v sg lm h2s h2c hlp hpc hvol hsig hllm
      ha hb hv s]
    rw [fcd_full_display d2 c2 a b' v sg lm h2s h2c hlp hpc hvol hsig hllm
      ha hb hv s']

/-- Witness for C7: concrete convergence of the chart and in place update. -/
theorem C7_witness :
    (okPayload ⟨1, 10⟩ "t1").success = true ∧
    (fetchChartData (.ok (okPayload ⟨2, 20⟩ "t2"))
        (fetchChartData (.ok (okPayload ⟨1, 10⟩ "t1")) initialState)).mainChart =
      (fetchChartData (.ok (okPayload ⟨2, 20⟩ "t2")) initialState).mainChart ∧
    (fetchChartData (.ok (okPayload ⟨2, 20⟩ "t2"))
        (fetchChartData (.ok (okPayload ⟨1, 10⟩ "t1"))
          initialState)).createdCount = initialState.createdCount + 1 ∧
    display (fetchChartData
        (.ok (fullPayload ⟨1, 10⟩ 100 1 5000000 ⟨"s1", none⟩ ⟨"l1", none⟩ "t1"))
        initialState) =
      display (fetchChartData
        (.ok (fullPayload ⟨1, 10⟩ 100 1 5000000 ⟨"s1", none⟩ ⟨"l1", none⟩ "t1"))
        (renderedState ⟨9, 9⟩ "t0" "1h")) :=
  ⟨rfl,
   C7_render_convergence_amended.1 (okPayload ⟨1, 10⟩ "t1")
     (okPayload ⟨2, 20⟩ "t2") ⟨1, 10⟩ ⟨2, 20⟩ initialState rfl rfl rfl rfl,
   (C7_render_convergence_amended.2.1 (okPayload ⟨1, 10⟩ "t1")
     (okPayload ⟨2, 20⟩ "t2") ⟨1, 10⟩ ⟨2, 20⟩ initialState rfl rfl rfl rfl
     rfl).2,
   C7_render_convergence_amended.2.2
     (fullPayload ⟨1, 10⟩ 100 1 5000000 ⟨"s1", none⟩ ⟨"l1", none⟩ "t1")
     ⟨1, 10⟩ 100 1 5000000 ⟨"s1", none⟩ ⟨"l1", none⟩ initialState
     (renderedState ⟨9, 9⟩ "t0" "1h") rfl rfl rfl rfl rfl rfl rfl
     (by norm_num) (by norm_num) (by norm_num)⟩

/-- C8: initialize is one fetch and render pass followed by starting the
periodic timer; when that first fetch fails before the render step, a
blocking alert is surfaced, the chart handle stays null, every displayed
field and the widget count are untouched, and exactly one timer runs at the
table cadence for the current timeframe. -/
theorem C8_first_fetch_failure (out : FetchOutcome) (s : DashState)
    (hf : failsBeforeRender out = true) (hc : s.mainChart = none)
    (ht : timersTracked s) :
    initDashboard out s = startRealTimeUpdates (fetchChartData out s) ∧
    (initDashboard out s).mainChart = none ∧
    display (initDashboard out s) = display s ∧
    (initDashboard out s).createdCount = s.createdCount ∧
    (initDashboard out s).alerts = s.alerts ++ ["Failed to fetch chart data"] ∧
    (initDashboard out s).timers = [⟨s.nextTimerId, intervalFor s.timeframe⟩] ∧
    (initDashboard out s).updateInterval = some s.nextTimerId := by
  have he := fcd_early out s hf
  have heq : initDashboard out s =
      startRealTimeUpdates (showError "Failed to fetch chart data" s) := by
    unfold initDashboard
    rw [he]
  obtain ⟨f1, f2, f3, f4, f5, f6, f7⟩ :=
    srtu_frame (showError "Failed to fetch chart data" s)
  obtain ⟨t1, t2⟩ :=
    srtu_tracked (showError "Failed to fetch chart data" s) ht
  refine ⟨by unfold initDashboard; rfl, ?_, ?_, ?_, ?_, ?_, ?_⟩
  · rw [heq]
    exact f2.trans hc
  · rw [heq]
    exact f1
  · rw [heq]
    exact f3
  · rw [heq]
    exact f4
  · rw [heq]
    exact t1
  · rw [heq]
    exact t2

/-- Witness for C8: a rejected first fetch on the fresh page state. -/
theorem C8_witness :
    failsBeforeRender .netError = true ∧
    (initDashboard .netError initialState).mainChart = none ∧
    (initDashboard .netError initialState).alerts =
      initialState.alerts ++ ["Failed to fetch chart data"] :=
  ⟨rfl,
   (C8_first_fetch_failure .netError initialState rfl rfl (Or.inl ⟨rfl, rfl⟩)).2.1,
   (C8_first_fetch_failure .netError initialState rfl rfl
     (Or.inl ⟨rfl, rfl⟩)).2.2.2.2.1⟩

end Traider
